import Mathlib

/-!
Verification of the mibragimov/kibana source slice: the guided-onboarding
state endpoint contract, the Zeek signature renderers, the DevTools
settings wrapper, the infra Memory lens-layer builder, and the filter-bar
functional-test service.  Each definition is a shallow embedding of the
corresponding TypeScript, with JavaScript strings, objects and nullable
values modelled by `String`, explicit structures and `Option`.
-/

namespace GuidedOnboarding

/-- A guide state record: per the spec glossary, "a persisted record
describing a user's progress through an onboarding flow, keyed by
`guideId`, with an `isActive` flag". -/
structure GuideState where
  guideId : String
  isActive : Bool
deriving DecidableEq, Repr

/-- An HTTP response of the state endpoint: a status code and the
`state` array of the JSON body `{ state: GuideState[] }`. -/
structure StateResponse where
  status : Nat
  state : List GuideState
deriving DecidableEq, Repr

/-- Modelled from the spec: the server handler of
`GET /api/guided_onboarding/state` is not part of the given sources (only
its integration test is).  Per the spec, the endpoint is "a thin read
endpoint backed by a document store keyed by a per-guide identifier",
takes an "optional query parameter `active=true|false`", returns
`{ state: GuideState[] }`, an empty saved-object store yields
`{ state: [] }`, and "filtering by `active=true` yields only guides with
`isActive: true`". -/
def getStateHandler (store : List GuideState) (active : Option Bool) : StateResponse :=
  { status := 200
    state :=
      match active with
      | some b => store.filter (fun g => g.isActive = b)
      | none => store }

end GuidedOnboarding

namespace Zeek

/-- The translated English texts imported as `i18n.S0`, …, `i18n.OTH` in
`zeek_signature.tsx`; the translation strings themselves are external, so
the development is parametric in them. -/
structure ZeekI18n where
  S0 : String
  S1 : String
  S2 : String
  S3 : String
  SF : String
  REJ : String
  RSTO : String
  RSTR : String
  RSTOS0 : String
  RSTRH : String
  SH : String
  SHR : String
  OTH : String

/-- The thirteen Zeek connection-state codes that key
`zeekConnLogDictionay`. -/
def zeekStateCodes : List String :=
  ["S0", "S1", "S2", "S3", "SF", "REJ", "RSTO", "RSTR", "RSTOS0", "RSTRH", "SH", "SHR", "OTH"]

/-- The lookup table `zeekConnLogDictionay` (sic) of
`zeek_signature.tsx`, as a finite map: `dict[state]` is `some` of the
i18n text for the thirteen listed codes and `none` (JS `undefined`) for
every other key. -/
def zeekConnLogDictionay (t : ZeekI18n) (state : String) : Option String :=
  if state = "S0" then some t.S0
  else if state = "S1" then some t.S1
  else if state = "S2" then some t.S2
  else if state = "S3" then some t.S3
  else if state = "SF" then some t.SF
  else if state = "REJ" then some t.REJ
  else if state = "RSTO" then some t.RSTO
  else if state = "RSTR" then some t.RSTR
  else if state = "RSTOS0" then some t.RSTOS0
  else if state = "RSTRH" then some t.RSTRH
  else if state = "SH" then some t.SH
  else if state = "SHR" then some t.SHR
  else if state = "OTH" then some t.OTH
  else none

/-- Function `extractStateLink` of `zeek_signature.tsx`.  The
`string | null | undefined` argument is an `Option String` (with `none`
for both `null` and `undefined`). -/
def extractStateLink (t : ZeekI18n) (state : Option String) : Option String :=
  match state with
  | some s =>
    match zeekConnLogDictionay t s with
    | some lookup => some (s ++ " " ++ lookup)
    | none => some s
  | none => none

/-- Function `extractStateValue` of `zeek_signature.tsx`:
`state != null && zeekConnLogDictionay[state] != null ?
zeekConnLogDictionay[state] : null`. -/
def extractStateValue (t : ZeekI18n) (state : Option String) : Option String :=
  match state with
  | some s =>
    match zeekConnLogDictionay t s with
    | some v => some v
    | none => none
  | none => none

/-- JavaScript `value.split('.')` on a string viewed as a list of
characters: the (possibly empty) segments between the dots, with
`"".split('.') = [""]`. -/
def jsSplitDot : List Char → List (List Char)
  | [] => [[]]
  | c :: rest =>
    match jsSplitDot rest with
    | [] => [[]]
    | seg :: segs => if c = '.' then [] :: seg :: segs else (c :: seg) :: segs

/-- Function `moduleStringRenderer` of `zeek_signature.tsx`: split on `'.'`; when
the split has at least two segments (so `split[1]` is not `undefined`),
return `split[1]` if it is non-empty and `split[0]` otherwise; else
return the value unchanged. -/
def moduleStringRenderer (value : List Char) : List Char :=
  match jsSplitDot value with
  | s0 :: s1 :: _ => if s1 ≠ [] then s1 else s0
  | _ => value

end Zeek

namespace DevTools

/-- The object `DEFAULT_SETTINGS.autocomplete = { fields: true, indices: true,
templates: true }` and the `autocomplete` field of `DevToolsSettings`. -/
structure AutocompleteSettings where
  fields : Bool
  indices : Bool
  templates : Bool
deriving DecidableEq, Repr

/-- A JavaScript value held by the settings storage: the numbers,
booleans and autocomplete objects the `Settings` class reads and writes
(numbers modelled exactly as rationals). -/
inductive StValue
  | num (q : ℚ)
  | bool (b : Bool)
  | obj (a : AutocompleteSettings)
deriving DecidableEq, Repr

/-- Per the claim, "a storage that behaves as a key-value map": the
`Storage` dependency of `Settings` (its implementation is external to the
sources). -/
def StorageMap : Type := String → Option StValue

/-- The call `storage.set(key, value)`. -/
def storageSet (st : StorageMap) (key : String) (value : StValue) : StorageMap :=
  fun k => if k = key then some value else st k

/-- The call `storage.get(key, default)`: the stored value, or the default when
the key is absent. -/
def storageGet (st : StorageMap) (key : String) (dflt : StValue) : StValue :=
  (st key).getD dflt

/-- The well-typed `DevToolsSettings` interface of the settings module. -/
structure DevToolsSettings where
  fontSize : ℚ
  wrapMode : Bool
  autocomplete : AutocompleteSettings
  polling : Bool
  pollInterval : ℚ
  tripleQuotes : Bool
  historyDisabled : Bool
deriving DecidableEq, Repr

/-- Method `Settings.getFontSize`, default `DEFAULT_SETTINGS.fontSize = 14`. -/
def getFontSize (st : StorageMap) : StValue := storageGet st "font_size" (.num 14)

/-- Method `Settings.getWrapMode`, default `DEFAULT_SETTINGS.wrapMode = true`. -/
def getWrapMode (st : StorageMap) : StValue := storageGet st "wrap_mode" (.bool true)

/-- Method `Settings.getTripleQuotes`, default `DEFAULT_SETTINGS.tripleQuotes = true`. -/
def getTripleQuotes (st : StorageMap) : StValue := storageGet st "triple_quotes" (.bool true)

/-- Method `Settings.getAutocomplete`, default `DEFAULT_SETTINGS.autocomplete`. -/
def getAutocomplete (st : StorageMap) : StValue :=
  storageGet st "autocomplete_settings" (.obj ⟨true, true, true⟩)

/-- Method `Settings.getPolling`, default `DEFAULT_SETTINGS.polling = false`. -/
def getPolling (st : StorageMap) : StValue := storageGet st "console_polling" (.bool false)

/-- Method `Settings.getHistoryDisabled`, default
`DEFAULT_SETTINGS.historyDisabled = false`. -/
def getHistoryDisabled (st : StorageMap) : StValue :=
  storageGet st "disable_history" (.bool false)

/-- Method `Settings.getPollInterval`, default
`DEFAULT_SETTINGS.pollInterval = 60000`. -/
def getPollInterval (st : StorageMap) : StValue :=
  storageGet st "poll_interval" (.num 60000)

/-- JavaScript `parseFloat` applied to a storage value: a stored number
parses back to itself; a boolean or object stringifies to text
(`"true"`, `"[object Object]"`, …) on which `parseFloat` yields `NaN`,
modelled as `none`. -/
def jsParseFloat : StValue → Option ℚ
  | .num q => some q
  | .bool _ => none
  | .obj _ => none

/-- JavaScript `Boolean` applied to a storage value: `0` and `-0` are
falsy, every other number is truthy, booleans are themselves, objects are
truthy. -/
def jsBoolean : StValue → Bool
  | .num q => decide (q ≠ 0)
  | .bool b => b
  | .obj _ => true

/-- Method `Settings.updateSettings({fontSize, wrapMode, tripleQuotes,
autocomplete, polling, historyDisabled, pollInterval})`: the seven
`set…` calls in source order, threaded through the storage. -/
def updateSettings (s : DevToolsSettings) (st : StorageMap) : StorageMap :=
  let st := storageSet st "font_size" (.num s.fontSize)
  let st := storageSet st "wrap_mode" (.bool s.wrapMode)
  let st := storageSet st "triple_quotes" (.bool s.tripleQuotes)
  let st := storageSet st "autocomplete_settings" (.obj s.autocomplete)
  let st := storageSet st "console_polling" (.bool s.polling)
  let st := storageSet st "disable_history" (.bool s.historyDisabled)
  storageSet st "poll_interval" (.num s.pollInterval)

/-- The runtime shape of the object `Settings.toJSON` returns: the
`autocomplete`, `wrapMode`, `tripleQuotes` and `pollInterval` fields are
returned from storage uncoerced; `fontSize` went through `parseFloat`
(so may be `NaN`, i.e. `none`); `polling` and `historyDisabled` went
through `Boolean`. -/
structure JsonSettings where
  autocomplete : StValue
  wrapMode : StValue
  tripleQuotes : StValue
  fontSize : Option ℚ
  polling : Bool
  historyDisabled : Bool
  pollInterval : StValue
deriving DecidableEq, Repr

/-- Method `Settings.toJSON`. -/
def toJSON (st : StorageMap) : JsonSettings :=
  { autocomplete := getAutocomplete st
    wrapMode := getWrapMode st
    tripleQuotes := getTripleQuotes st
    fontSize := jsParseFloat (getFontSize st)
    polling := jsBoolean (getPolling st)
    historyDisabled := jsBoolean (getHistoryDisabled st)
    pollInterval := getPollInterval st }

/-- The canonical image of a well-typed `DevToolsSettings` value as the
runtime object `toJSON` is expected to return: at the JavaScript level
this is the identity (the same numbers, booleans and object). -/
def embedSettings (s : DevToolsSettings) : JsonSettings :=
  { autocomplete := .obj s.autocomplete
    wrapMode := .bool s.wrapMode
    tripleQuotes := .bool s.tripleQuotes
    fontSize := some s.fontSize
    polling := s.polling
    historyDisabled := s.historyDisabled
    pollInterval := .num s.pollInterval }

end DevTools

namespace Memory

/-- The `format` object of the memory-usage formula column:
`{ id: 'percent', params: { decimals: 0 } }`. -/
structure FormulaFormat where
  id : String
  decimals : Nat
deriving DecidableEq, Repr

/-- The second argument of `formula.insertOrReplaceFormulaColumn`: the
formula text and its format. -/
structure FormulaConfig where
  formula : String
  format : FormulaFormat
deriving DecidableEq, Repr

/-- A `PersistedIndexPatternLayer`: a column order and a columns record;
the column payloads are external (Lens), so the type is parametric in
them. -/
structure PersistedLayer (γ : Type) where
  columnOrder : List String
  columns : γ
deriving DecidableEq, Repr

/-- Constant `BREAKDOWN_COLUMN_NAME` in `memory.ts`. -/
def BREAKDOWN_COLUMN_NAME : String := "hosts_aggs_breakdown"

/-- Constant `HISTOGRAM_COLUMN_NAME` in `memory.ts`. -/
def HISTOGRAM_COLUMN_NAME : String := "x_date_histogram"

/-- The formula configuration `Memory.getLayers` passes for the
`y_memory_usage` column. -/
def memoryFormulaConfig : FormulaConfig :=
  { formula := "average(system.memory.actual.used.bytes) / max(system.memory.total)"
    format := { id := "percent", decimals := 0 } }

/-- Method `Memory.getLayers` of `memory.ts`.  The external dependencies are
parameters: `defaultLayerId` is the imported `DEFAULT_LAYER_ID`,
`getBreakdownColumn`/`getHistogramColumn`/`mergeColumns` build the base
layer's columns record (`{...breakdown, ...histogram}`), `timeFieldName`
is `dataView.timeFieldName`, `breakdownSize` is
`options.breakdownSize`, and `insertOrReplaceFormulaColumn` is the Lens
formula API, returning `none` for a falsy result.  A `throw` is an
`Except.error` of the thrown message. -/
def getLayers {α γ δ : Type} (defaultLayerId : String) (timeFieldName : Option String)
    (breakdownSize : δ) (getBreakdownColumn : String → String → δ → γ)
    (getHistogramColumn : String → String → γ) (mergeColumns : γ → γ → γ)
    (insertOrReplaceFormulaColumn : String → FormulaConfig → PersistedLayer γ → Option α) :
    Except String (List (String × α)) :=
  let baseLayer : PersistedLayer γ :=
    { columnOrder := [BREAKDOWN_COLUMN_NAME, HISTOGRAM_COLUMN_NAME]
      columns :=
        mergeColumns (getBreakdownColumn BREAKDOWN_COLUMN_NAME "host.name" breakdownSize)
          (getHistogramColumn HISTOGRAM_COLUMN_NAME (timeFieldName.getD "@timestamp")) }
  match insertOrReplaceFormulaColumn "y_memory_usage" memoryFormulaConfig baseLayer with
  | none => Except.error "Error generating the data layer for the chart"
  | some dataLayer => Except.ok [(defaultLayerId, dataLayer)]

/-- The base layer `Memory.getLayers` hands to
`insertOrReplaceFormulaColumn`, named so the theorems can refer to the
exact formula call the source makes. -/
def memoryBaseLayer {γ δ : Type} (timeFieldName : Option String) (breakdownSize : δ)
    (getBreakdownColumn : String → String → δ → γ) (getHistogramColumn : String → String → γ)
    (mergeColumns : γ → γ → γ) : PersistedLayer γ :=
  { columnOrder := [BREAKDOWN_COLUMN_NAME, HISTOGRAM_COLUMN_NAME]
    columns :=
      mergeColumns (getBreakdownColumn BREAKDOWN_COLUMN_NAME "host.name" breakdownSize)
        (getHistogramColumn HISTOGRAM_COLUMN_NAME (timeFieldName.getD "@timestamp")) }

end Memory

namespace FilterBar

/-- The `BooleanRelation` constant object: `AND` and `OR`. -/
inductive BooleanRelation
  | AND
  | OR
deriving DecidableEq, Repr

/-- The operations of `FilterWithoutValue`: `'exists'` and
`'does not exist'`. -/
inductive NoValueOp
  | existsOp
  | doesNotExist
deriving DecidableEq, Repr

/-- The operations of `FilterWithSingleValue`: `'is'` and `'is not'`. -/
inductive SingleValueOp
  | is
  | isNot
deriving DecidableEq, Repr

/-- The operations of `FilterWithMultipleValues`: `'is one of'` and
`'is not one of'`. -/
inductive MultipleValuesOp
  | isOneOf
  | isNotOneOf
deriving DecidableEq, Repr

/-- The operations of `FilterWithRange`: `'is between'` and
`'is not between'`. -/
inductive RangeOp
  | isBetween
  | isNotBetween
deriving DecidableEq, Repr

/-- The string literals of the `Operation` constant for each
`FilterWithoutValue` operation. -/
def NoValueOp.label : NoValueOp → String
  | .existsOp => "exists"
  | .doesNotExist => "does not exist"

/-- The string literals of the `Operation` constant for each
`FilterWithSingleValue` operation. -/
def SingleValueOp.label : SingleValueOp → String
  | .is => "is"
  | .isNot => "is not"

/-- The string literals of the `Operation` constant for each
`FilterWithMultipleValues` operation. -/
def MultipleValuesOp.label : MultipleValuesOp → String
  | .isOneOf => "is one of"
  | .isNotOneOf => "is not one of"

/-- The string literals of the `Operation` constant for each
`FilterWithRange` operation. -/
def RangeOp.label : RangeOp → String
  | .isBetween => "is between"
  | .isNotBetween => "is not between"

/-- The `FilterLeaf` union of the filter-bar service: one constructor
per interface (`FilterWithoutValue`, `FilterWithSingleValue`,
`FilterWithMultipleValues`, `FilterWithRange`), each with the fields the
interface declares (range bounds are `number | undefined`). -/
inductive FilterLeaf
  | withoutValue (field : String) (operation : NoValueOp)
  | withSingleValue (field : String) (operation : SingleValueOp) (value : String)
  | withMultipleValues (field : String) (operation : MultipleValuesOp) (value : List String)
  | withRange (field : String) (operation : RangeOp) (valueFrom valueTo : Option ℚ)
deriving DecidableEq, Repr

/-- The `Operation` string of a leaf, as carried by its `operation`
property. -/
def FilterLeaf.operationLabel : FilterLeaf → String
  | .withoutValue _ op => op.label
  | .withSingleValue _ op _ => op.label
  | .withMultipleValues _ op _ => op.label
  | .withRange _ op _ _ => op.label

/-- The runtime JavaScript value of a leaf's `value` property: a string,
an array of strings, or a `{ from, to }` range object. -/
inductive LeafJsValue
  | str (s : String)
  | arr (xs : List String)
  | rangeObj (rangeFrom rangeTo : Option ℚ)
deriving DecidableEq, Repr

/-- The `value` property of a leaf at runtime (`none` when the property
is absent, as for `FilterWithoutValue`). -/
def leafValue : FilterLeaf → Option LeafJsValue
  | .withoutValue _ _ => none
  | .withSingleValue _ _ v => some (.str v)
  | .withMultipleValues _ _ v => some (.arr v)
  | .withRange _ _ f t => some (.rangeObj f t)

/-- The own property names of a leaf object, as declared by its
interface. -/
def leafKeys : FilterLeaf → List String
  | .withoutValue _ _ => ["field", "operation"]
  | .withSingleValue _ _ _ => ["field", "operation", "value"]
  | .withMultipleValues _ _ _ => ["field", "operation", "value"]
  | .withRange _ _ _ _ => ["field", "operation", "value"]

/-- The check `Array.isArray(value)`. -/
def jsIsArray : LeafJsValue → Bool
  | .arr _ => true
  | _ => false

/-- The check `typeof value === 'object'`: true for arrays and plain objects,
false for strings. -/
def jsTypeofIsObject : LeafJsValue → Bool
  | .str _ => false
  | _ => true

/-- The check `'from' in value`: only the range object has a `from` property. -/
def jsHasFrom : LeafJsValue → Bool
  | .rangeObj _ _ => true
  | _ => false

/-- The check `'to' in value`: only the range object has a `to` property. -/
def jsHasTo : LeafJsValue → Bool
  | .rangeObj _ _ => true
  | _ => false

/-- Method `FilterBarService.isFilterLeafWithoutValue`:
`!('value' in filter)`. -/
def isFilterLeafWithoutValue (filter : FilterLeaf) : Bool :=
  !((leafKeys filter).contains "value")

/-- Method `FilterBarService.isFilterWithRange`: `'value' in filter &&
!Array.isArray(filter.value) && typeof filter.value === 'object' &&
'from' in filter.value && 'to' in filter.value`. -/
def isFilterWithRange (filter : FilterLeaf) : Bool :=
  (leafKeys filter).contains "value" &&
    (match leafValue filter with
      | some v => !jsIsArray v && jsTypeofIsObject v && jsHasFrom v && jsHasTo v
      | none => false)

/-- The `Filter` union: a leaf, or a `FilterNode` holding a
`BooleanRelation` condition and a list of sub-filters. -/
inductive Filter
  | leaf (l : FilterLeaf)
  | node (condition : BooleanRelation) (filters : List Filter)

/-- The own property names of a filter object: leaves per their
interface, nodes have `condition` and `filters`. -/
def filterKeys : Filter → List String
  | .leaf l => leafKeys l
  | .node _ _ => ["condition", "filters"]

/-- Method `FilterBarService.isFilterNode`:
`'filters' in filter && 'condition' in filter`. -/
def isFilterNode (filter : Filter) : Bool :=
  (filterKeys filter).contains "filters" && (filterKeys filter).contains "condition"

/-- The observable browser interactions `createFilter` performs: a click
on the `add-or-filter` button of the form at a path, a click on the
`add-and-filter` button of the form at a path, or filling a leaf's data
into the form at a path via `pasteFilterData`. -/
inductive Action
  | clickAddOr (path : String)
  | clickAddAnd (path : String)
  | pasteData (l : FilterLeaf) (path : String)
deriving DecidableEq, Repr

/-- The child path `` `${path}.${index}` ``. -/
def childPath (path : String) (index : Nat) : String :=
  path ++ "." ++ toString index

/-- Method `FilterBarService.addOrFilter(path)`: click `add-or-filter` in the
form `filter-${path}`. -/
def addOrFilter (path : String) : List Action :=
  [Action.clickAddOr path]

/-- Method `FilterBarService.addAndFilter(path)`: click `add-and-filter` in
the form `filter-${path}`. -/
def addAndFilter (path : String) : List Action :=
  [Action.clickAddAnd path]

/-- Method `FilterBarService.addConditionalFilter(filter, path)`: `addOrFilter`
when the node's condition is `OR`, `addAndFilter` otherwise. -/
def addConditionalFilter (condition : BooleanRelation) (path : String) : List Action :=
  if condition = BooleanRelation.OR then addOrFilter path else addAndFilter path

/-- Method `FilterBarService.pasteFilterData(filter, path)`, at the granularity
of one fill action on the form at `path`. -/
def pasteFilterData (l : FilterLeaf) (path : String) : List Action :=
  [Action.pasteData l path]

mutual

/-- Method `FilterBarService.createFilter(filter, path)` as the sequence of
interactions it performs: a node runs the `for (const [index, f] of
filter.filters.entries())` loop, a leaf is pasted. -/
def createFilter : Filter → String → List Action
  | .leaf l, path => pasteFilterData l path
  | .node condition filters, path =>
    createFilterLoop condition filters.length path 0 false filters

/-- The loop body of `createFilter` on a node: `n` is the full
`filter.filters.length`, `index` the current index, `startedAdding` the
mutable flag (false only before the first iteration); each iteration
optionally clicks the conditional joiner, then recurses into the child
at `` `${path}.${index}` ``. -/
def createFilterLoop (condition : BooleanRelation) (n : Nat) (path : String) :
    Nat → Bool → List Filter → List Action
  | _, _, [] => []
  | index, startedAdding, f :: rest =>
    (if index < n - 1 then
      addConditionalFilter condition (if startedAdding then childPath path index else path)
    else []) ++
    createFilter f (childPath path index) ++
    createFilterLoop condition n path (index + 1) true rest

end

/-- An interaction with the joiner path forgotten, for comparison with
the claim, which specifies the kind of joiner click but not the form it
is clicked in. -/
inductive SpecAction
  | addOrClick
  | addAndClick
  | pasteData (l : FilterLeaf) (path : String)
deriving DecidableEq, Repr

/-- Forget the path of a joiner click. -/
def eraseJoinerPath : Action → SpecAction
  | .clickAddOr _ => .addOrClick
  | .clickAddAnd _ => .addAndClick
  | .pasteData l path => .pasteData l path

mutual

/-- The traversal the claim describes: a node with `n` children performs
`n - 1` conditional-joiner clicks (`add-or-filter` for `OR`,
`add-and-filter` otherwise) and recurses into the children in list
order, visiting child `i` at `` `${path}.${i}` ``; a leaf is filled via
`pasteFilterData`. -/
def claimTraversal : Filter → String → List SpecAction
  | .leaf l, path => [SpecAction.pasteData l path]
  | .node condition filters, path => claimChildren condition filters.length path 0 filters

/-- The per-child part of `claimTraversal`: before every child but the
last, one joiner click of the kind given by the node's condition. -/
def claimChildren (condition : BooleanRelation) (n : Nat) (path : String) :
    Nat → List Filter → List SpecAction
  | _, [] => []
  | i, f :: rest =>
    (if i < n - 1 then
      [if condition = BooleanRelation.OR then SpecAction.addOrClick else SpecAction.addAndClick]
    else []) ++
    claimTraversal f (childPath path i) ++ claimChildren condition n path (i + 1) rest

end

/-- The height of a filter tree: 1 for a leaf, 1 more than the tallest
child for a node. -/
def depth : Filter → Nat
  | .leaf _ => 1
  | .node _ filters => 1 + (filters.attach.map (fun x => depth x.val)).foldr max 0
decreasing_by
  have := List.sizeOf_lt_of_mem x.property
  simp only [Filter.node.sizeOf_spec]
  omega

mutual

/-- Function `createFilter` with an explicit recursion budget: `none` when the
budget is exhausted, `some` of the interaction sequence otherwise.  The
budget is spent once per descent into a filter. -/
def createFilterFuel : Nat → Filter → String → Option (List Action)
  | 0, _, _ => none
  | _ + 1, .leaf l, path => some (pasteFilterData l path)
  | fuel + 1, .node condition filters, path =>
    createFilterLoopFuel fuel condition filters.length path 0 false filters

/-- The loop of `createFilterFuel`, spending `fuel` on each child. -/
def createFilterLoopFuel (fuel : Nat) (condition : BooleanRelation) (n : Nat) (path : String) :
    Nat → Bool → List Filter → Option (List Action)
  | _, _, [] => some []
  | index, startedAdding, f :: rest =>
    match createFilterFuel fuel f (childPath path index) with
    | none => none
    | some mid =>
      match createFilterLoopFuel fuel condition n path (index + 1) true rest with
      | none => none
      | some tail =>
        some ((if index < n - 1 then
          addConditionalFilter condition (if startedAdding then childPath path index else path)
        else []) ++ mid ++ tail)

end

end FilterBar

theorem jsSplitDot_of_no_dot (v : List Char) (h : '.' ∉ v) : Zeek.jsSplitDot v = [v] := by
  induction v with
  | nil => rfl
  | cons c rest ih =>
    rw [List.mem_cons, not_or] at h
    rw [Zeek.jsSplitDot, ih h.2]
    have hc : ¬c = '.' := fun hc => h.1 hc.symm
    simp [hc]

/-- C1: for every set of stored guide records, a GET request to
`/api/guided_onboarding/state` with query parameter `active=true`
returns status 200 and a body whose `state` array contains exactly those
stored guides whose `isActive` field is true, and no others. -/
theorem getState_active_true_exactly_active (store : List GuidedOnboarding.GuideState) :
    (GuidedOnboarding.getStateHandler store (some true)).status = 200 ∧
    (GuidedOnboarding.getStateHandler store (some true)).state =
      store.filter (fun g => g.isActive = true) ∧
    ∀ g : GuidedOnboarding.GuideState,
      g ∈ (GuidedOnboarding.getStateHandler store (some true)).state ↔
        g ∈ store ∧ g.isActive = true := by
  refine ⟨rfl, rfl, fun g => ?_⟩
  simp [GuidedOnboarding.getStateHandler]

theorem getState_active_true_exactly_active_witness :
    (⟨"g1", true⟩ : GuidedOnboarding.GuideState) ∈
      (GuidedOnboarding.getStateHandler [⟨"g1", true⟩, ⟨"g2", false⟩] (some true)).state :=
  ((getState_active_true_exactly_active [⟨"g1", true⟩, ⟨"g2", false⟩]).2.2 ⟨"g1", true⟩).mpr
    (by refine ⟨?_, rfl⟩; simp)

/-- C2: when the saved-object store contains no guided-setup records, a
GET request to `/api/guided_onboarding/state` returns status 200 and the
exact body `{ state: [] }`. -/
theorem getState_empty_store_empty_state :
    GuidedOnboarding.getStateHandler [] none =
      { status := 200, state := ([] : List GuidedOnboarding.GuideState) } :=
  rfl

/-- C3: for every set of stored guide records, a GET request to
`/api/guided_onboarding/state` without a query parameter returns status
200 and a body of shape `{ state: GuideState[] }` containing the state
of every stored guide. -/
theorem getState_no_param_all_guides (store : List GuidedOnboarding.GuideState) :
    (GuidedOnboarding.getStateHandler store none).status = 200 ∧
    (GuidedOnboarding.getStateHandler store none).state = store ∧
    ∀ g : GuidedOnboarding.GuideState,
      g ∈ store → g ∈ (GuidedOnboarding.getStateHandler store none).state :=
  ⟨rfl, rfl, fun _ hg => hg⟩

theorem getState_no_param_all_guides_witness :
    (⟨"g1", true⟩ : GuidedOnboarding.GuideState) ∈
      (GuidedOnboarding.getStateHandler [⟨"g1", true⟩] none).state :=
  (getState_no_param_all_guides [⟨"g1", true⟩]).2.2 ⟨"g1", true⟩ (by simp)

/-- C4: `Memory.getLayers` throws `'Error generating the data layer for
the chart'` if and only if `formula.insertOrReplaceFormulaColumn`
returns a falsy result for the memory-usage formula; otherwise it
returns a record with exactly one entry, keyed by `DEFAULT_LAYER_ID`,
holding that formula column's layer. -/
theorem memory_getLayers_error_iff_formula_falsy {α γ δ : Type}
    (defaultLayerId : String) (timeFieldName : Option String) (breakdownSize : δ)
    (getBreakdownColumn : String → String → δ → γ) (getHistogramColumn : String → String → γ)
    (mergeColumns : γ → γ → γ)
    (insertOrReplaceFormulaColumn :
      String → Memory.FormulaConfig → Memory.PersistedLayer γ → Option α) :
    (Memory.getLayers defaultLayerId timeFieldName breakdownSize getBreakdownColumn
        getHistogramColumn mergeColumns insertOrReplaceFormulaColumn =
      Except.error "Error generating the data layer for the chart" ↔
      insertOrReplaceFormulaColumn "y_memory_usage" Memory.memoryFormulaConfig
        (Memory.memoryBaseLayer timeFieldName breakdownSize getBreakdownColumn
          getHistogramColumn mergeColumns) = none) ∧
    ∀ dataLayer : α,
      insertOrReplaceFormulaColumn "y_memory_usage" Memory.memoryFormulaConfig
        (Memory.memoryBaseLayer timeFieldName breakdownSize getBreakdownColumn
          getHistogramColumn mergeColumns) = some dataLayer →
      Memory.getLayers defaultLayerId timeFieldName breakdownSize getBreakdownColumn
        getHistogramColumn mergeColumns insertOrReplaceFormulaColumn =
        Except.ok [(defaultLayerId, dataLayer)] := by
  constructor
  · cases h : insertOrReplaceFormulaColumn "y_memory_usage" Memory.memoryFormulaConfig
      (Memory.memoryBaseLayer timeFieldName breakdownSize getBreakdownColumn
        getHistogramColumn mergeColumns) with
    | none =>
      simp only [Memory.getLayers, Memory.memoryBaseLayer] at h ⊢
      rw [h]
      simp
    | some dl =>
      simp only [Memory.getLayers, Memory.memoryBaseLayer] at h ⊢
      rw [h]
      simp
  · intro dl h
    simp only [Memory.getLayers, Memory.memoryBaseLayer] at h ⊢
    rw [h]

theorem memory_getLayers_error_iff_formula_falsy_witness :
    @Memory.getLayers ℕ Unit Unit "layer_1" none () (fun _ _ _ => ()) (fun _ _ => ())
        (fun _ _ => ()) (fun _ _ _ => some 7) = Except.ok [("layer_1", 7)] :=
  (@memory_getLayers_error_iff_formula_falsy ℕ Unit Unit "layer_1" none () (fun _ _ _ => ())
    (fun _ _ => ()) (fun _ _ => ()) (fun _ _ _ => some 7)).2 7 rfl

/-- C7: `extractStateLink` returns null when the input state is null or
undefined, returns `` `${state} ${lookup}` `` when the state is one of
the thirteen Zeek connection-state codes in `zeekConnLogDictionay`, and
returns the state string unchanged for every other non-null string;
`extractStateValue` returns the dictionary text for known codes and null
for every unknown, null, or undefined input. -/
theorem zeek_state_renderers_spec (t : Zeek.ZeekI18n) (s : String) :
    Zeek.extractStateLink t none = none ∧
    Zeek.extractStateValue t none = none ∧
    (s ∈ Zeek.zeekStateCodes →
      ∃ lookup, Zeek.zeekConnLogDictionay t s = some lookup ∧
        Zeek.extractStateLink t (some s) = some (s ++ " " ++ lookup) ∧
        Zeek.extractStateValue t (some s) = some lookup) ∧
    (s ∉ Zeek.zeekStateCodes →
      Zeek.extractStateLink t (some s) = some s ∧
      Zeek.extractStateValue t (some s) = none) := by
  refine ⟨rfl, rfl, fun h => ?_, fun h => ?_⟩
  · simp only [Zeek.zeekStateCodes, List.mem_cons, List.not_mem_nil, or_false] at h
    rcases h with h | h | h | h | h | h | h | h | h | h | h | h | h <;> subst h <;>
      exact ⟨_, rfl, rfl, rfl⟩
  · simp only [Zeek.zeekStateCodes, List.mem_cons, List.not_mem_nil, or_false, not_or] at h
    obtain ⟨h1, h2, h3, h4, h5, h6, h7, h8, h9, h10, h11, h12, h13⟩ := h
    simp [Zeek.extractStateLink, Zeek.extractStateValue, Zeek.zeekConnLogDictionay,
      h1, h2, h3, h4, h5, h6, h7, h8, h9, h10, h11, h12, h13]

theorem zeek_state_renderers_spec_witness :
    (∃ lookup,
      Zeek.zeekConnLogDictionay ⟨"a", "b", "c", "d", "e", "f", "g", "h", "i", "j", "k", "l", "m"⟩
          "SF" = some lookup ∧
      Zeek.extractStateLink ⟨"a", "b", "c", "d", "e", "f", "g", "h", "i", "j", "k", "l", "m"⟩
          (some "SF") = some ("SF" ++ " " ++ lookup) ∧
      Zeek.extractStateValue ⟨"a", "b", "c", "d", "e", "f", "g", "h", "i", "j", "k", "l", "m"⟩
          (some "SF") = some lookup) ∧
    Zeek.extractStateLink ⟨"a", "b", "c", "d", "e", "f", "g", "h", "i", "j", "k", "l", "m"⟩
        (some "XX") = some "XX" ∧
    Zeek.extractStateValue ⟨"a", "b", "c", "d", "e", "f", "g", "h", "i", "j", "k", "l", "m"⟩
        (some "XX") = none :=
  ⟨(zeek_state_renderers_spec ⟨"a", "b", "c", "d", "e", "f", "g", "h", "i", "j", "k", "l", "m"⟩
      "SF").2.2.1 (by decide),
   (zeek_state_renderers_spec ⟨"a", "b", "c", "d", "e", "f", "g", "h", "i", "j", "k", "l", "m"⟩
      "XX").2.2.2 (by decide)⟩

/-- C8: for every string value, `moduleStringRenderer` splits the value
on `'.'` and returns the second segment when it exists and is non-empty,
returns the first segment when the second segment exists but is the
empty string, and returns the input unchanged when the value contains no
dot. -/
theorem moduleStringRenderer_spec (v : List Char) :
    (∀ s0 s1 rest, Zeek.jsSplitDot v = s0 :: s1 :: rest → s1 ≠ [] →
      Zeek.moduleStringRenderer v = s1) ∧
    (∀ s0 rest, Zeek.jsSplitDot v = s0 :: [] :: rest →
      Zeek.moduleStringRenderer v = s0) ∧
    ('.' ∉ v → Zeek.moduleStringRenderer v = v) := by
  refine ⟨fun s0 s1 rest hs hne => ?_, fun s0 rest hs => ?_, fun h => ?_⟩
  · rw [Zeek.moduleStringRenderer, hs]
    simp [hne]
  · rw [Zeek.moduleStringRenderer, hs]
    simp
  · rw [Zeek.moduleStringRenderer, jsSplitDot_of_no_dot v h]

theorem moduleStringRenderer_spec_witness :
    Zeek.moduleStringRenderer ['a', '.', 'b'] = ['b'] ∧
    Zeek.moduleStringRenderer ['a', '.'] = ['a'] ∧
    Zeek.moduleStringRenderer ['x', 'y'] = ['x', 'y'] :=
  ⟨(moduleStringRenderer_spec ['a', '.', 'b']).1 ['a'] ['b'] [] (by decide) (by decide),
   (moduleStringRenderer_spec ['a', '.']).2.1 ['a'] [] (by decide),
   (moduleStringRenderer_spec ['x', 'y']).2.2 (by decide)⟩

/-- C9: for every well-typed `DevToolsSettings` value `s` and a storage
that behaves as a key-value map, calling `Settings.updateSettings(s)`
and then `Settings.toJSON()` returns a value equal to `s` — the
update/serialize round-trip is the identity, including the `parseFloat`
and `Boolean` coercions in `toJSON`. -/
theorem settings_update_toJSON_roundtrip (s : DevTools.DevToolsSettings)
    (st : DevTools.StorageMap) :
    DevTools.toJSON (DevTools.updateSettings s st) = DevTools.embedSettings s :=
  rfl

namespace FilterBar

theorem map_erase_addConditionalFilter (c : BooleanRelation) (p : String) :
    (addConditionalFilter c p).map eraseJoinerPath =
      [if c = BooleanRelation.OR then SpecAction.addOrClick else SpecAction.addAndClick] := by
  cases c <;> simp [addConditionalFilter, addOrFilter, addAndFilter, eraseJoinerPath]

theorem createFilterLoop_map_erase (c : BooleanRelation) (n : Nat) (path : String) :
    ∀ (fs : List Filter),
      (∀ f ∈ fs, ∀ p, (createFilter f p).map eraseJoinerPath = claimTraversal f p) →
      ∀ (i : Nat) (b : Bool),
        (createFilterLoop c n path i b fs).map eraseJoinerPath = claimChildren c n path i fs
  | [], _, i, b => by rw [createFilterLoop, claimChildren]; rfl
  | f :: rest, h, i, b => by
    rw [createFilterLoop, claimChildren]
    rw [List.map_append, List.map_append]
    rw [h f (List.mem_cons_self f rest) (childPath path i)]
    rw [createFilterLoop_map_erase c n path rest
      (fun g hg p => h g (List.mem_cons_of_mem f hg) p) (i + 1) true]
    by_cases hlt : i < n - 1
    · simp [hlt, map_erase_addConditionalFilter]
    · simp [hlt]

theorem createFilter_map_erase : ∀ (f : Filter) (path : String),
    (createFilter f path).map eraseJoinerPath = claimTraversal f path
  | .leaf l, path => by
    rw [createFilter, claimTraversal]
    simp [pasteFilterData, eraseJoinerPath]
  | .node c fs, path => by
    rw [createFilter, claimTraversal]
    exact createFilterLoop_map_erase c fs.length path fs
      (fun g hg p => createFilter_map_erase g p) 0 false
termination_by f _ => sizeOf f
decreasing_by
  have := List.sizeOf_lt_of_mem hg
  simp only [Filter.node.sizeOf_spec]
  omega

theorem mem_le_foldr_max : ∀ (l : List Nat) (a : Nat), a ∈ l → a ≤ l.foldr max 0
  | x :: xs, a, h => by
    rcases List.mem_cons.mp h with rfl | h'
    · exact le_max_left _ _
    · exact le_trans (mem_le_foldr_max xs a h') (le_max_right _ _)

theorem depth_child_le (fs : List Filter) (f : Filter) (hf : f ∈ fs) :
    depth f ≤ (fs.attach.map (fun x => depth x.val)).foldr max 0 := by
  apply mem_le_foldr_max
  exact List.mem_map.mpr ⟨⟨f, hf⟩, List.mem_attach fs ⟨f, hf⟩, rfl⟩

theorem createFilterLoopFuel_eq (c : BooleanRelation) (n : Nat) (path : String) (fuel : Nat) :
    ∀ (fs : List Filter),
      (∀ f ∈ fs, ∀ p, createFilterFuel fuel f p = some (createFilter f p)) →
      ∀ (i : Nat) (b : Bool),
        createFilterLoopFuel fuel c n path i b fs = some (createFilterLoop c n path i b fs)
  | [], _, i, b => by rw [createFilterLoopFuel, createFilterLoop]
  | f :: rest, h, i, b => by
    rw [createFilterLoopFuel, createFilterLoop]
    rw [h f (List.mem_cons_self f rest) (childPath path i)]
    rw [createFilterLoopFuel_eq c n path fuel rest
      (fun g hg p => h g (List.mem_cons_of_mem f hg) p) (i + 1) true]

theorem createFilterFuel_sufficient : ∀ (f : Filter) (fuel : Nat), depth f ≤ fuel →
    ∀ (path : String), createFilterFuel fuel f path = some (createFilter f path)
  | .leaf l, fuel, h, path => by
    cases fuel with
    | zero => rw [depth] at h; omega
    | succ fuel => rw [createFilterFuel, createFilter]
  | .node c fs, fuel, h, path => by
    cases fuel with
    | zero => rw [depth] at h; omega
    | succ fuel =>
      rw [createFilterFuel, createFilter]
      apply createFilterLoopFuel_eq
      intro g hg p
      refine createFilterFuel_sufficient g fuel ?_ p
      have h1 : depth g ≤ (fs.attach.map (fun x => depth x.val)).foldr max 0 :=
        depth_child_le fs g hg
      rw [depth] at h
      omega
termination_by f _ _ _ => sizeOf f
decreasing_by
  have := List.sizeOf_lt_of_mem hg
  simp only [Filter.node.sizeOf_spec]
  omega

end FilterBar

/-- C5: for every `FilterNode` with `n` children,
`FilterBarService.createFilter` performs exactly `n - 1`
conditional-joiner actions for that node — an `add-or-filter` click when
the node's condition is OR and an `add-and-filter` click otherwise — and
recurses into the children in list order, visiting child `i` at path
`` `${path}.${i}` ``; leaves are filled via `pasteFilterData`.  Stated as:
the interaction sequence of `createFilter`, with joiner-click paths
forgotten, is exactly the traversal the claim describes
(`claimTraversal`, whose node case emits one joiner click of the kind
given by the condition before every child but the last and recurses into
child `i` at `` `${path}.${i}` ``, and whose leaf case pastes the leaf). -/
theorem createFilter_traversal_matches_claim (f : FilterBar.Filter) (path : String) :
    (FilterBar.createFilter f path).map FilterBar.eraseJoinerPath =
      FilterBar.claimTraversal f path :=
  FilterBar.createFilter_map_erase f path

/-- C6: `FilterBarService.createFilter` terminates on every finite
filter tree: the recursion is structural, descending only into a node's
children.  Stated as: running `createFilter` with a recursion budget of
the tree's height never exhausts the budget and computes the total
traversal. -/
theorem createFilter_terminates_within_depth (f : FilterBar.Filter) (path : String) :
    FilterBar.createFilterFuel (FilterBar.depth f) f path =
      some (FilterBar.createFilter f path) :=
  FilterBar.createFilterFuel_sufficient f (FilterBar.depth f) le_rfl path

/-- C10: the filter type guards discriminate the `Filter` union exactly:
for every `Filter`, `isFilterNode` returns true if and only if the value
is a `FilterNode`; for every `FilterLeaf`, `isFilterLeafWithoutValue`
returns true if and only if its operation is `'exists'` or
`'does not exist'`, and `isFilterWithRange` returns true if and only if
its operation is `'is between'` or `'is not between'`. -/
theorem filter_type_guards_discriminate :
    (∀ f : FilterBar.Filter, FilterBar.isFilterNode f = true ↔
      ∃ c fs, f = FilterBar.Filter.node c fs) ∧
    (∀ l : FilterBar.FilterLeaf, FilterBar.isFilterLeafWithoutValue l = true ↔
      (l.operationLabel = "exists" ∨ l.operationLabel = "does not exist")) ∧
    (∀ l : FilterBar.FilterLeaf, FilterBar.isFilterWithRange l = true ↔
      (l.operationLabel = "is between" ∨ l.operationLabel = "is not between")) := by
  refine ⟨fun f => ?_, fun l => ?_, fun l => ?_⟩
  · cases f with
    | leaf l =>
      cases l <;>
        simp [FilterBar.isFilterNode, FilterBar.filterKeys, FilterBar.leafKeys]
    | node c fs =>
      simp [FilterBar.isFilterNode, FilterBar.filterKeys]
  · cases l with
    | withoutValue field op =>
      cases op <;>
        simp [FilterBar.isFilterLeafWithoutValue, FilterBar.leafKeys,
          FilterBar.FilterLeaf.operationLabel, FilterBar.NoValueOp.label]
    | withSingleValue field op v =>
      cases op <;>
        simp [FilterBar.isFilterLeafWithoutValue, FilterBar.leafKeys,
          FilterBar.FilterLeaf.operationLabel, FilterBar.SingleValueOp.label]
    | withMultipleValues field op v =>
      cases op <;>
        simp [FilterBar.isFilterLeafWithoutValue, FilterBar.leafKeys,
          FilterBar.FilterLeaf.operationLabel, FilterBar.MultipleValuesOp.label]
    | withRange field op vf vt =>
      cases op <;>
        simp [FilterBar.isFilterLeafWithoutValue, FilterBar.leafKeys,
          FilterBar.FilterLeaf.operationLabel, FilterBar.RangeOp.label]
  · cases l with
    | withoutValue field op =>
      cases op <;>
        simp [FilterBar.isFilterWithRange, FilterBar.leafKeys, FilterBar.leafValue,
          FilterBar.FilterLeaf.operationLabel, FilterBar.NoValueOp.label]
    | withSingleValue field op v =>
      cases op <;>
        simp [FilterBar.isFilterWithRange, FilterBar.leafKeys, FilterBar.leafValue,
          FilterBar.jsIsArray, FilterBar.jsTypeofIsObject, FilterBar.jsHasFrom,
          FilterBar.jsHasTo, FilterBar.FilterLeaf.operationLabel, FilterBar.SingleValueOp.label]
    | withMultipleValues field op v =>
      cases op <;>
        simp [FilterBar.isFilterWithRange, FilterBar.leafKeys, FilterBar.leafValue,
          FilterBar.jsIsArray, FilterBar.jsTypeofIsObject, FilterBar.jsHasFrom,
          FilterBar.jsHasTo, FilterBar.FilterLeaf.operationLabel,
          FilterBar.MultipleValuesOp.label]
    | withRange field op vf vt =>
      cases op <;>
        simp [FilterBar.isFilterWithRange, FilterBar.leafKeys, FilterBar.leafValue,
          FilterBar.jsIsArray, FilterBar.jsTypeofIsObject, FilterBar.jsHasFrom,
          FilterBar.jsHasTo, FilterBar.FilterLeaf.operationLabel, FilterBar.RangeOp.label]

theorem filter_type_guards_discriminate_witness :
    FilterBar.isFilterNode (FilterBar.Filter.node FilterBar.BooleanRelation.OR []) = true ∧
    FilterBar.isFilterLeafWithoutValue
      (FilterBar.FilterLeaf.withoutValue "f" FilterBar.NoValueOp.existsOp) = true ∧
    FilterBar.isFilterWithRange
      (FilterBar.FilterLeaf.withRange "f" FilterBar.RangeOp.isBetween none none) = true :=
  ⟨(filter_type_guards_discriminate.1 _).mpr ⟨_, _, rfl⟩,
   (filter_type_guards_discriminate.2.1 _).mpr (Or.inl rfl),
   (filter_type_guards_discriminate.2.2 _).mpr (Or.inl rfl)⟩
